import Mathlib

/-!
# Verification of the oxc error-recovering parser core

A shallow embedding of the parser's recovery machinery:
token cursor (`crates/oxc_parser/src/cursor.rs`), grammar-context flags and
parsing-context stack (`context.rs`), auxiliary parser state (`state.rs`),
the synchronization engine (`synchronization.rs`), the try-statement handler
fix-up (`js/statement.rs`) and result finalization (`lib.rs`).

Parts of the crate that live outside the provided sources (the lexer, the
diagnostics constructors, the error handler, the AST arena, `oxc_span`) are
modelled from the specification; each such definition says so in its doc
comment.  Everything else is translated directly from the Rust sources.
-/

namespace Oxc

/-- Modelled from the spec: the lexer (external collaborator) assigns a `Kind`
to every token; reserved words get distinct kinds (spec section 9,
"Reserved-word handling").  The enumeration below covers every kind consulted
by the embedded parser code. -/
inductive Kind where
  | Eof
  | Undetermined
  | Ident
  | Semicolon
  | Comma
  | Colon
  | Dot
  | Dot3
  | LParen
  | RParen
  | LCurly
  | RCurly
  | LBrack
  | RBrack
  | LAngle
  | RAngle
  | Eq
  | Plus
  | Minus
  | Bang
  | Tilde
  | Plus2
  | Minus2
  | Star
  | Slash
  | At
  | Str
  | TemplateHead
  | TemplateTail
  | Decimal
  | Binary
  | Octal
  | Hex
  | BigInt
  | Let
  | Const
  | Var
  | Function
  | Class
  | If
  | Else
  | For
  | While
  | Do
  | Switch
  | Case
  | Default
  | Return
  | Break
  | Continue
  | Throw
  | Try
  | Catch
  | Finally
  | New
  | This
  | Super
  | Null
  | True
  | False
  | Typeof
  | Void
  | Delete
  | Await
  | Yield
  | In
  | Of
  | Import
  | Export
  | From
  | Extends
  | Implements
  | Enum
  | With
  | Debugger
  | Public
  | Private
  | Protected
  | Static
  | Readonly
  | Async
  | Get
  | Set
  | Accessor
  deriving DecidableEq, Repr

/-- Modelled from the spec: the lexer's keyword classification (every
reserved or contextual word kind). -/
def Kind.is_any_keyword (k : Kind) : Bool :=
  match k with
  | .Let | .Const | .Var | .Function | .Class | .If | .Else | .For | .While
  | .Do | .Switch | .Case | .Default | .Return | .Break | .Continue | .Throw
  | .Try | .Catch | .Finally | .New | .This | .Super | .Null | .True | .False
  | .Typeof | .Void | .Delete | .Await | .Yield | .In | .Of | .Import
  | .Export | .From | .Extends | .Implements | .Enum | .With | .Debugger
  | .Public | .Private | .Protected | .Static | .Readonly | .Async | .Get
  | .Set | .Accessor => true
  | _ => false

/-- Modelled from the spec: "Expression start covers ... identifiers, and
contextual keywords" — an identifier or any (contextual) keyword kind. -/
def Kind.is_identifier_or_keyword (k : Kind) : Bool :=
  k == .Ident || k.is_any_keyword

/-- Modelled from the spec: end-of-file test on a kind (`lib.rs` calls
`self.cur_kind().is_eof()` during finalization). -/
def Kind.is_eof (k : Kind) : Bool :=
  k == .Eof

/-- Modelled from the spec (oxc_span is external): byte-offset span.
The Rust field named `end` is called `end_` here. -/
structure Span where
  start : Nat
  end_ : Nat
  deriving DecidableEq, Repr

/-- Modelled from the spec: `Span::empty(pos)` is the zero-length span at
`pos`. -/
def Span.empty (pos : Nat) : Span :=
  ⟨pos, pos⟩

/-- Token, spec section 3: `{kind, start, end, on_new_line, escaped}`;
produced by the (external) lexer, never mutated by the parser. -/
structure Token where
  kind : Kind
  start : Nat
  end_ : Nat
  on_new_line : Bool
  escaped : Bool
  deriving DecidableEq, Repr

/-- `Token::span()`: the token's byte range. -/
def Token.span (t : Token) : Span :=
  ⟨t.start, t.end_⟩

/-- `Token::is_on_new_line()`. -/
def Token.is_on_new_line (t : Token) : Bool :=
  t.on_new_line

/-- Modelled from the spec: diagnostics are tagged values carrying the spans
and token kinds the parser passes to the constructors in `diagnostics.rs`
(not among the provided sources).  The `other` constructor stands for the
remaining diagnostic kinds, which the embedded code never inspects. -/
inductive Diagnostic where
  | escaped_keyword (span : Span)
  | auto_semicolon_insertion (span : Span)
  | expect_token (expected found : Kind) (span : Span)
  | expect_closing (expected found : Kind) (span : Span) (opening : Span)
  | expect_catch_finally (span : Span)
  | unclosed_paren (opening current : Span)
  | cover_initialized_name (span : Span)
  | flow (span : Span)
  | overlong_source
  | other (tag : String) (span : Span)
  deriving DecidableEq, Repr

/-- Modelled from the spec, section 3: `FatalError = {diagnostic,
errors_len_at_time_of_fault}` so a checkpoint can discard later errors on
rewind (the `error_handler` module is not among the provided sources). -/
structure FatalError where
  error : Diagnostic
  errors_len : Nat
  deriving DecidableEq, Repr

/-- `ParseOptions` from `lib.rs` (the `parse_regular_expression` field is
feature-gated in the source; it is always present here). -/
structure ParseOptions where
  parse_regular_expression : Bool
  allow_return_outside_function : Bool
  preserve_parens : Bool
  allow_v8_intrinsics : Bool
  recover_from_errors : Bool
  deriving DecidableEq, Repr

/-- `ParseOptions::default()` from `lib.rs`. -/
def ParseOptions.default : ParseOptions :=
  ⟨false, false, true, false, false⟩

/-- Modelled from the spec (oxc_span is external): the language dimension of
a `SourceType`. -/
inductive Language where
  | javascript
  | typescript
  | typescript_definition
  deriving DecidableEq, Repr

/-- Modelled from the spec (oxc_span is external): the module-kind dimension
of a `SourceType`. -/
inductive ModuleKind where
  | script
  | module_
  | unambiguous
  deriving DecidableEq, Repr

/-- Modelled from the spec, section 6: `SourceType` dimensions — language,
module-kind, jsx. -/
structure SourceType where
  language : Language
  module_kind : ModuleKind
  jsx : Bool
  deriving DecidableEq, Repr

/-- Modelled from the spec: `SourceType::is_typescript()`. -/
def SourceType.is_typescript (st : SourceType) : Bool :=
  st.language == .typescript || st.language == .typescript_definition

/-- Modelled from the spec: `SourceType::is_javascript()`. -/
def SourceType.is_javascript (st : SourceType) : Bool :=
  st.language == .javascript

/-- Modelled from the spec: `SourceType::is_unambiguous()`. -/
def SourceType.is_unambiguous (st : SourceType) : Bool :=
  st.module_kind == .unambiguous

/-- Modelled from the spec: `SourceType::with_module(true)`. -/
def SourceType.with_module (st : SourceType) (_flag : Bool) : SourceType :=
  { st with module_kind := .module_ }

/-- Modelled from the spec: `SourceType::with_script(true)`. -/
def SourceType.with_script (st : SourceType) (_flag : Bool) : SourceType :=
  { st with module_kind := .script }

/-- Grammar context bitset from `context.rs`: `bitflags! { pub struct
Context: u8 }`.  The bits are carried as a `Nat` (always `< 256`). -/
structure Context where
  bits : Nat
  deriving DecidableEq, Repr

namespace Context

/-- `[In]` flag, bit `1 << 0` (`context.rs`). -/
def In : Context := ⟨1⟩

/-- `[Yield]` flag, bit `1 << 1` (`context.rs`). -/
def Yield : Context := ⟨2⟩

/-- `[Await]` flag, bit `1 << 2` (`context.rs`). -/
def Await : Context := ⟨4⟩

/-- `[Return]` flag, bit `1 << 3` (`context.rs`). -/
def Return : Context := ⟨8⟩

/-- `Decorator` flag, bit `1 << 4` (`context.rs`). -/
def Decorator : Context := ⟨16⟩

/-- `DisallowConditionalTypes` flag, bit `1 << 5` (`context.rs`). -/
def DisallowConditionalTypes : Context := ⟨32⟩

/-- `Ambient` flag, bit `1 << 6` (`context.rs`). -/
def Ambient : Context := ⟨64⟩

/-- Bitflags union. -/
def union (a b : Context) : Context :=
  ⟨a.bits ||| b.bits⟩

/-- Bitflags difference (`a & !b` on a `u8`). -/
def difference (a b : Context) : Context :=
  ⟨a.bits &&& (255 ^^^ b.bits)⟩

/-- Bitflags containment test. -/
def contains (a b : Context) : Bool :=
  a.bits &&& b.bits == b.bits

/-- `Context::default()` from `context.rs`: just `In`. -/
def default : Context := In

/-- The complete list of flag constants declared by the `bitflags!` block in
`context.rs` (lines 13-50). -/
def declaredFlags : List Context :=
  [In, Yield, Await, Return, Decorator, DisallowConditionalTypes, Ambient]

/-- The names of the flag constants declared by the `bitflags!` block in
`context.rs`, in declaration order. -/
def declaredFlagNames : List String :=
  ["In", "Yield", "Await", "Return", "Decorator",
   "DisallowConditionalTypes", "Ambient"]

end Context

/-- `ParsingContext` from `context.rs`: the closed enum of parsing contexts
consulted by error recovery.  The source variant `TypeAnnotation` is spelled
`TypeAnnotationCtx` here; all other names match the source. -/
inductive ParsingContext where
  | TopLevel
  | BlockStatements
  | FunctionBody
  | Parameters
  | ArgumentExpressions
  | TypeAnnotationCtx
  | TypeMembers
  | ClassMembers
  | EnumMembers
  | ObjectLiteralMembers
  | ArrayLiteralMembers
  | SwitchClauses
  | ImportSpecifiers
  | ExportSpecifiers
  | TypeParameters
  | TypeArguments
  | JsxAttributes
  | JsxChildren
  deriving DecidableEq, Repr

/-- `ParsingContextStack` from `context.rs`: the list models the backing
`Vec`, index 0 is the bottom (`TopLevel`) and the last element is the top. -/
structure ParsingContextStack where
  contexts : List ParsingContext
  deriving DecidableEq, Repr

namespace ParsingContextStack

/-- `ParsingContextStack::new()`: initialized with `TopLevel`. -/
def new : ParsingContextStack :=
  ⟨[.TopLevel]⟩

/-- `push`: push a context on top. -/
def push (st : ParsingContextStack) (ctx : ParsingContext) : ParsingContextStack :=
  ⟨st.contexts ++ [ctx]⟩

/-- `pop`: returns the popped context, or `none` (and no change) when only
`TopLevel` remains — `TopLevel` is protected from popping. -/
def pop (st : ParsingContextStack) : Option ParsingContext × ParsingContextStack :=
  if st.contexts.length ≤ 1 then (none, st)
  else (st.contexts.getLast?, ⟨st.contexts.dropLast⟩)

/-- `current`: the top context (`TopLevel` if the stack were ever empty,
which the source treats as unreachable). -/
def current (st : ParsingContextStack) : ParsingContext :=
  st.contexts.getLast?.getD .TopLevel

/-- `is_in_context`: whole-stack membership test. -/
def is_in_context (st : ParsingContextStack) (ctx : ParsingContext) : Bool :=
  st.contexts.contains ctx

/-- `active_contexts`: all contexts from bottom to top. -/
def active_contexts (st : ParsingContextStack) : List ParsingContext :=
  st.contexts

/-- `depth`. -/
def depth (st : ParsingContextStack) : Nat :=
  st.contexts.length

end ParsingContextStack

/-- `ParserState` from `state.rs`.  The hash containers are modelled as
lists; `cover_initialized_name` keeps only the spans of the stored
`AssignmentExpression`s (the AST values are external and only their spans
are read, in `check_unfinished_errors`). -/
structure ParserState where
  not_parenthesized_arrow : List Nat
  cover_initialized_name : List Span
  trailing_commas : List (Nat × Span)
  paren_stack : List Span
  deriving DecidableEq, Repr

namespace ParserState

/-- `ParserState::new()`. -/
def new : ParserState :=
  ⟨[], [], [], []⟩

/-- `push_paren` (`state.rs`): push an opening-paren span (the list models
the `Vec`, pushing at the back). -/
def push_paren (st : ParserState) (span : Span) : ParserState :=
  { st with paren_stack := st.paren_stack ++ [span] }

/-- `pop_paren` (`state.rs`): `self.paren_stack.pop().is_some()` — pops the
back element if any, returning whether one was popped. -/
def pop_paren (st : ParserState) : Bool × ParserState :=
  (!st.paren_stack.isEmpty, { st with paren_stack := st.paren_stack.dropLast })

/-- `has_unclosed_parens` (`state.rs`). -/
def has_unclosed_parens (st : ParserState) : Bool :=
  !st.paren_stack.isEmpty

/-- `first_unclosed_paren` (`state.rs`): the span of the oldest unclosed
paren (`Vec::first`, front of the list). -/
def first_unclosed_paren (st : ParserState) : Option Span :=
  st.paren_stack.head?

end ParserState

/-- Modelled from the spec, section 2: the lexer facade is an external
token producer supporting checkpoint/rewind.  `tokens` is the stream it
would produce, `pos` the cursor into it, `errors` the lexer-produced
diagnostics (`self.lexer.errors`). -/
structure LexerState where
  tokens : List Token
  pos : Nat
  errors : List Diagnostic
  deriving DecidableEq, Repr

/-- Modelled from the spec: the token the lexer yields once the stream is
exhausted. -/
def endOfFileToken : Token :=
  ⟨.Eof, 0, 0, false, false⟩

/-- Modelled from the spec: `Lexer::next_token()` — yield the token at the
cursor and advance it. -/
def LexerState.next_token (lx : LexerState) : Token × LexerState :=
  (lx.tokens.getD lx.pos endOfFileToken, { lx with pos := lx.pos + 1 })

/-- Modelled from the spec: a lexer checkpoint is the lexer position. -/
def LexerState.checkpoint (lx : LexerState) : Nat :=
  lx.pos

/-- Modelled from the spec: `Lexer::rewind` restores the position. -/
def LexerState.rewind (lx : LexerState) (cp : Nat) : LexerState :=
  { lx with pos := cp }

/-- The parser state: the fields of `ParserImpl` from `lib.rs` (those the
embedded operations touch).  `source_len` stands for `source_text.len()`;
the text itself is external. -/
structure ParserImpl where
  options : ParseOptions
  lexer : LexerState
  source_type : SourceType
  source_len : Nat
  errors : List Diagnostic
  fatal_error : Option FatalError
  token : Token
  prev_token_end : Nat
  state : ParserState
  ctx : Context
  context_stack : ParsingContextStack
  deriving DecidableEq, Repr

namespace ParserImpl

/-- Modelled from the spec, section 7: recording a diagnostic pushes it onto
the ordered list (`self.error(d)`; the `error_handler` module is not among
the provided sources). -/
def error (s : ParserImpl) (d : Diagnostic) : ParserImpl :=
  { s with errors := s.errors ++ [d] }

/-- Modelled from the spec, section 7: "the first error sets `fatal`" — the
fatal slot is written only when empty, recording the diagnostic together
with the current diagnostic-list length (spec section 3). -/
def set_fatal_error (s : ParserImpl) (d : Diagnostic) : ParserImpl :=
  if s.fatal_error.isNone then
    { s with fatal_error := some ⟨d, s.errors.length⟩ }
  else s

/-- `has_fatal_error`. -/
def has_fatal_error (s : ParserImpl) : Bool :=
  s.fatal_error.isSome

/-- `cur_kind` (`cursor.rs`). -/
def cur_kind (s : ParserImpl) : Kind :=
  s.token.kind

/-- `at` (`cursor.rs`): kind equality on the current token.  Named `at_`
because `at` is reserved in Lean. -/
def at_ (s : ParserImpl) (kind : Kind) : Bool :=
  s.cur_kind == kind

/-- `report_escaped_keyword` (`cursor.rs`). -/
def report_escaped_keyword (s : ParserImpl) (span : Span) : ParserImpl :=
  s.error (.escaped_keyword span)

/-- `advance` (`cursor.rs`): report an escaped keyword if needed, record the
previous token's end, move to the next token. -/
def advance (s : ParserImpl) (kind : Kind) : ParserImpl :=
  let s :=
    if s.token.escaped && kind.is_any_keyword then
      s.report_escaped_keyword s.token.span
    else s
  let next := s.lexer.next_token
  { s with prev_token_end := s.token.end_, token := next.1, lexer := next.2 }

/-- `eat` (`cursor.rs`): advance iff at `kind`, returning whether it did. -/
def eat (s : ParserImpl) (kind : Kind) : Bool × ParserImpl :=
  if s.at_ kind then (true, s.advance kind) else (false, s)

/-- `bump` (`cursor.rs`): advance if at `kind`. -/
def bump (s : ParserImpl) (kind : Kind) : ParserImpl :=
  if s.at_ kind then s.advance kind else s

/-- `bump_any` (`cursor.rs`): advance any token. -/
def bump_any (s : ParserImpl) : ParserImpl :=
  s.advance s.cur_kind

/-- `bump_remap` (`cursor.rs`). -/
def bump_remap (s : ParserImpl) (kind : Kind) : ParserImpl :=
  s.advance kind

/-- `can_insert_semicolon` (`cursor.rs`). -/
def can_insert_semicolon (s : ParserImpl) : Bool :=
  (s.token.kind == .Semicolon || s.token.kind == .RCurly || s.token.kind == .Eof)
    || s.token.is_on_new_line

/-- `asi` (`cursor.rs`): automatic semicolon insertion. -/
def asi (s : ParserImpl) : ParserImpl :=
  let r := s.eat .Semicolon
  if r.1 || r.2.can_insert_semicolon then r.2
  else
    let span := Span.empty r.2.prev_token_end
    let err := Diagnostic.auto_semicolon_insertion span
    if r.2.options.recover_from_errors then r.2.error err
    else r.2.set_fatal_error err

/-- `handle_expect_failure` (`cursor.rs`): record (recovery) or make fatal
(non-recovery) an expected-token diagnostic. -/
def handle_expect_failure (s : ParserImpl) (expected_kind : Kind) : ParserImpl :=
  let range := s.token.span
  let err := Diagnostic.expect_token expected_kind s.cur_kind range
  if s.options.recover_from_errors then s.error err
  else s.set_fatal_error err

/-- `expect_without_advance` (`cursor.rs`). -/
def expect_without_advance (s : ParserImpl) (kind : Kind) : ParserImpl :=
  if !(s.at_ kind) then s.handle_expect_failure kind else s

/-- `expect` (`cursor.rs`): in recovery mode an expected `(` that is
actually present is tracked on `paren_stack` before advancing; on failure
`handle_expect_failure` runs; the cursor advances regardless. -/
def expect (s : ParserImpl) (kind : Kind) : ParserImpl :=
  let s :=
    if s.options.recover_from_errors && kind == .LParen && s.at_ kind then
      { s with state := s.state.push_paren s.token.span }
    else s
  let s := if !(s.at_ kind) then s.handle_expect_failure kind else s
  s.advance kind

/-- `expect_closing` (`cursor.rs`): in recovery mode a `)` expectation pops
`paren_stack` whether or not the closer is present; on mismatch an
expected-closing diagnostic referencing the opening span is recorded
(recovery) or made fatal; the cursor advances regardless. -/
def expect_closing (s : ParserImpl) (kind : Kind) (opening_span : Span) : ParserImpl :=
  let found_closing := s.at_ kind
  let s :=
    if s.options.recover_from_errors && kind == .RParen then
      { s with state := (s.state.pop_paren).2 }
    else s
  let s :=
    if !found_closing then
      let range := s.token.span
      let err := Diagnostic.expect_closing kind s.cur_kind range opening_span
      if s.options.recover_from_errors then s.error err
      else s.set_fatal_error err
    else s
  s.advance kind

/-- `ParserCheckpoint` (`cursor.rs`): `{lexer, cur_token, prev_span_end,
errors_pos, fatal_error}`. -/
structure Checkpoint where
  lexer : Nat
  cur_token : Token
  prev_span_end : Nat
  errors_pos : Nat
  fatal_error : Option FatalError
  deriving DecidableEq, Repr

/-- `checkpoint` (`cursor.rs`): save the observable cursor state; the fatal
slot is moved out (`self.fatal_error.take()`). -/
def checkpoint (s : ParserImpl) : Checkpoint × ParserImpl :=
  (⟨s.lexer.checkpoint, s.token, s.prev_token_end, s.errors.length, s.fatal_error⟩,
   { s with fatal_error := none })

/-- `checkpoint_with_error_recovery` (`cursor.rs`): identical to
`checkpoint` except for the flavour of (external) lexer checkpoint taken;
in this model the two coincide. -/
def checkpoint_with_error_recovery (s : ParserImpl) : Checkpoint × ParserImpl :=
  s.checkpoint

/-- `rewind` (`cursor.rs`): restore lexer position, current token,
`prev_token_end`, truncate the diagnostic list to the saved length, restore
the fatal slot.  (Note: `state` — including `paren_stack` — and `ctx` are
not part of the checkpoint and are not restored.) -/
def rewind (s : ParserImpl) (cp : Checkpoint) : ParserImpl :=
  { s with
    lexer := s.lexer.rewind cp.lexer,
    token := cp.cur_token,
    prev_token_end := cp.prev_span_end,
    errors := s.errors.take cp.errors_pos,
    fatal_error := cp.fatal_error }

/-- `try_parse` (`cursor.rs`): run `f` under a recovery checkpoint; commit
iff no fatal error occurred and no new diagnostics were added, else restore
the grammar-context flags and rewind. -/
def try_parse {α : Type} (s : ParserImpl) (f : ParserImpl → α × ParserImpl) :
    Option α × ParserImpl :=
  let r := s.checkpoint_with_error_recovery
  let cp := r.1
  let ctx := r.2.ctx
  let errors_before := cp.errors_pos
  let run := f r.2
  let errors_after := run.2.errors.length
  if run.2.fatal_error.isNone && errors_after == errors_before then
    (some run.1, run.2)
  else
    (none, ParserImpl.rewind { run.2 with ctx := ctx } cp)

/-- `lookahead` (`cursor.rs`): run the predicate under a checkpoint and
always rewind. -/
def lookahead {α : Type} (s : ParserImpl) (f : ParserImpl → α × ParserImpl) :
    α × ParserImpl :=
  let r := s.checkpoint
  let run := f r.2
  (run.1, ParserImpl.rewind run.2 r.1)

end ParserImpl

/-- `RecoveryDecision` from `synchronization.rs`: skip the current token, or
abort the current context. -/
inductive RecoveryDecision where
  | Skip
  | Abort
  deriving DecidableEq, Repr

namespace ParserImpl

/-- `is_context_terminator` (`synchronization.rs`): does the current token
terminate the given parsing context?  Returns `false` whenever recovery is
disabled. -/
def is_context_terminator (s : ParserImpl) (ctx : ParsingContext) : Bool :=
  if !s.options.recover_from_errors then false
  else
    match ctx with
    | .TopLevel => s.at_ .Eof
    | .BlockStatements | .FunctionBody =>
        s.at_ .RCurly || s.at_ .Eof
    | .Parameters =>
        s.at_ .RParen
          || s.at_ .LCurly
          || s.at_ .Extends
          || s.at_ .Implements
          || s.at_ .Eof
    | .ArgumentExpressions =>
        s.at_ .RParen
          || s.at_ .Semicolon
          || s.at_ .Eof
    | .ClassMembers
    | .TypeMembers
    | .EnumMembers
    | .ObjectLiteralMembers => s.at_ .RCurly || s.at_ .Eof
    | .ArrayLiteralMembers => s.at_ .RBrack || s.at_ .Eof
    | .SwitchClauses =>
        s.at_ .RCurly
          || s.at_ .Case
          || s.at_ .Default
          || s.at_ .Eof
    | .ImportSpecifiers | .ExportSpecifiers =>
        s.at_ .RCurly
          || s.at_ .From
          || s.at_ .Semicolon
          || s.at_ .Eof
    | .TypeParameters =>
        s.at_ .RAngle
          || s.at_ .LCurly
          || s.at_ .Extends
          || s.at_ .Eof
    | .TypeArguments =>
        s.at_ .RAngle
          || s.at_ .RParen
          || s.at_ .LCurly
          || s.at_ .Eof
    | .TypeAnnotationCtx =>
        s.at_ .Eq
          || s.at_ .Semicolon
          || s.at_ .Comma
          || s.at_ .RParen
          || s.at_ .RCurly
          || s.at_ .Eof
    | .JsxAttributes =>
        s.at_ .RAngle
          || s.at_ .Slash
          || s.at_ .Eof
    | .JsxChildren =>
        s.at_ .LAngle
          || s.at_ .Eof

/-- `is_start_of_expression_recovery` (`synchronization.rs`). -/
def is_start_of_expression_recovery (s : ParserImpl) : Bool :=
  (match s.cur_kind with
   | .This | .Super | .Null | .True | .False | .Str | .TemplateHead
   | .TemplateTail | .Decimal | .Binary | .Octal | .Hex | .BigInt | .LParen
   | .LBrack | .LCurly | .Function | .Class | .New | .Slash | .Plus | .Minus
   | .Bang | .Tilde | .Plus2 | .Minus2 | .Typeof | .Void | .Delete | .Await
   | .LAngle => true
   | _ => false)
    || s.cur_kind.is_identifier_or_keyword

/-- `is_start_of_statement_recovery` (`synchronization.rs`). -/
def is_start_of_statement_recovery (s : ParserImpl) : Bool :=
  (match s.cur_kind with
   | .Let | .Const | .Var | .Function | .Class | .If | .For | .While | .Do
   | .Switch | .Return | .Break | .Continue | .Throw | .Try | .LCurly
   | .At => true
   | _ => false)
    || s.is_start_of_expression_recovery

/-- `is_start_of_class_member` (`synchronization.rs`). -/
def is_start_of_class_member (s : ParserImpl) : Bool :=
  (match s.cur_kind with
   | .Public | .Private | .Protected | .Static | .Readonly | .Async | .Get
   | .Set | .Star | .LBrack | .At | .Accessor => true
   | _ => false)
    || s.cur_kind.is_identifier_or_keyword

/-- `is_context_element_start` (`synchronization.rs`): can the current token
begin a fresh element in the given context?  Returns `false` whenever
recovery is disabled. -/
def is_context_element_start (s : ParserImpl) (ctx : ParsingContext)
    (in_error_recovery : Bool) : Bool :=
  if !s.options.recover_from_errors then false
  else
    match ctx with
    | .BlockStatements =>
        if in_error_recovery then s.is_start_of_statement_recovery
        else s.is_start_of_statement_recovery || s.at_ .Semicolon
    | .Parameters =>
        s.at_ .Dot3
          || s.at_ .LCurly
          || s.at_ .LBrack
          || s.cur_kind.is_identifier_or_keyword
    | .ArgumentExpressions | .ArrayLiteralMembers =>
        s.at_ .Dot3
          || s.is_start_of_expression_recovery
    | .ClassMembers =>
        if in_error_recovery then s.is_start_of_class_member
        else s.is_start_of_class_member || s.at_ .Semicolon
    | .TypeMembers =>
        s.cur_kind.is_identifier_or_keyword
          || s.at_ .LBrack
          || s.at_ .LParen
          || s.at_ .New
          || s.at_ .Readonly
    | .EnumMembers =>
        s.cur_kind.is_identifier_or_keyword || s.at_ .LBrack
    | .ObjectLiteralMembers =>
        s.at_ .LBrack
          || s.at_ .Star
          || s.at_ .Dot3
          || s.cur_kind.is_identifier_or_keyword
    | .SwitchClauses => s.at_ .Case || s.at_ .Default
    | .ImportSpecifiers | .ExportSpecifiers =>
        s.cur_kind.is_identifier_or_keyword
    | _ => false

/-- `is_in_some_parsing_context` (`synchronization.rs`): walk the active
context stack; true iff the current token is a terminator or recovery-mode
element start of some active context.  Returns `false` whenever recovery is
disabled. -/
def is_in_some_parsing_context (s : ParserImpl) : Bool :=
  if !s.options.recover_from_errors then false
  else
    s.context_stack.active_contexts.any fun ctx =>
      s.is_context_terminator ctx || s.is_context_element_start ctx true

/-- `synchronize_on_error` (`synchronization.rs`): abort when recovery is
disabled, when the current token terminates `ctx`, or when it is meaningful
in some active context; otherwise consume the current token and skip. -/
def synchronize_on_error (s : ParserImpl) (ctx : ParsingContext) :
    RecoveryDecision × ParserImpl :=
  if !s.options.recover_from_errors then (.Abort, s)
  else if s.is_context_terminator ctx then (.Abort, s)
  else if s.is_in_some_parsing_context then (.Abort, s)
  else (.Skip, s.bump_any)

end ParserImpl

/-- The terminator table exactly as written in the spec, section 4.4
("`is_context_terminator(ctx)` — is the current token a structural end of
`ctx`? Table: ...").  This definition is transcribed from the SPEC's table,
to be compared with the source-derived `ParserImpl.is_context_terminator`. -/
def specTerminatorTable (ctx : ParsingContext) (k : Kind) : Bool :=
  match ctx with
  | .TopLevel => k == .Eof
  | .BlockStatements | .FunctionBody => k == .RCurly || k == .Eof
  | .Parameters =>
      k == .RParen || k == .LCurly || k == .Extends || k == .Implements
        || k == .Eof
  | .ArgumentExpressions => k == .RParen || k == .Semicolon || k == .Eof
  | .ClassMembers | .TypeMembers | .EnumMembers | .ObjectLiteralMembers =>
      k == .RCurly || k == .Eof
  | .ArrayLiteralMembers => k == .RBrack || k == .Eof
  | .SwitchClauses =>
      k == .RCurly || k == .Case || k == .Default || k == .Eof
  | .ImportSpecifiers | .ExportSpecifiers =>
      k == .RCurly || k == .From || k == .Semicolon || k == .Eof
  | .TypeParameters =>
      k == .RAngle || k == .LCurly || k == .Extends || k == .Eof
  | .TypeArguments =>
      k == .RAngle || k == .RParen || k == .LCurly || k == .Eof
  | .TypeAnnotationCtx =>
      k == .Eq || k == .Semicolon || k == .Comma || k == .RParen
        || k == .RCurly || k == .Eof
  | .JsxAttributes => k == .RAngle || k == .Slash || k == .Eof
  | .JsxChildren => k == .LAngle || k == .Eof

/-- Modelled from the spec: a block statement node — only its span and
member count are observable here (the AST arena is external). -/
structure BlockStatement where
  span : Span
  body_len : Nat
  deriving DecidableEq, Repr

/-- Modelled from the spec: a catch parameter — its span and, when the
pattern is a plain binding identifier, that identifier's name. -/
structure CatchParameter where
  span : Span
  pattern_ident : Option String
  deriving DecidableEq, Repr

/-- Modelled from the spec: a catch clause — span, optional parameter,
body block. -/
structure CatchClause where
  span : Span
  param : Option CatchParameter
  body : BlockStatement
  deriving DecidableEq, Repr

/-- `create_dummy_catch_clause` (`js/statement.rs`, lines 1015-1021): an
empty block statement at `span` becomes the body of a catch clause with NO
parameter (`alloc_catch_clause(span, None, body)`).  The `&mut self`
receiver of the source is only the AST arena, so the function is pure
here. -/
def create_dummy_catch_clause (span : Span) : CatchClause :=
  { span := span, param := none, body := { span := span, body_len := 0 } }

/-- `create_dummy_catch_parameter` (`js/statement.rs`, lines 1025-1032): a
binding-identifier pattern named "e" at `span`. -/
def create_dummy_catch_parameter (span : Span) : CatchParameter :=
  { span := span, pattern_ident := some "e" }

namespace ParserImpl

/-- The handler fix-up inside `parse_try_statement` (`js/statement.rs`,
lines 818-834): after the try block, an optional catch clause and an
optional finalizer have been parsed, when both are absent an
expected-catch-or-finally diagnostic is recorded at the empty span after
the block, and in recovery mode a dummy catch clause at that span is
substituted. -/
def try_statement_finish_handler (s : ParserImpl) (block_end : Nat)
    (handler : Option CatchClause) (finalizer : Option BlockStatement) :
    Option CatchClause × ParserImpl :=
  if handler.isNone && finalizer.isNone then
    let range := Span.empty block_end
    let s := s.error (.expect_catch_finally range)
    if s.options.recover_from_errors then
      (some (create_dummy_catch_clause range), s)
    else (none, s)
  else (handler, s)

end ParserImpl

/-- Modelled from the spec: a program node — only member counts and the
source type are observable here (the AST arena is external). -/
structure Program where
  body_len : Nat
  directives_len : Nat
  has_hashbang : Bool
  source_type : SourceType
  deriving DecidableEq, Repr

/-- Modelled from the spec: `Program::dummy(allocator)` followed by setting
the source type (`lib.rs`, fatal branch of `parse`). -/
def Program.dummy (st : SourceType) : Program :=
  { body_len := 0, directives_len := 0, has_hashbang := false, source_type := st }

/-- Modelled from the spec: `Program::is_empty()` — no statements,
directives, or hashbang. -/
def Program.is_empty (p : Program) : Bool :=
  p.body_len == 0 && p.directives_len == 0 && !p.has_hashbang

/-- `MAX_LEN` from `lib.rs` on 64-bit systems: `u32::MAX`. -/
def MAX_LEN : Nat := 4294967295

/-- Modelled from the spec: the module record — only `has_module_syntax`
is consulted by finalization (the module-record builder is external). -/
structure ModuleRecord where
  has_module_syntax : Bool
  deriving DecidableEq, Repr

/-- `ParserReturn` from `lib.rs` (the module record and the
irregular-whitespace list are external pass-throughs and omitted). -/
structure ParserReturn where
  program : Program
  errors : List Diagnostic
  panicked : Bool
  is_flow_language : Bool
  deriving DecidableEq, Repr

namespace ParserImpl

/-- `check_unfinished_errors` (`lib.rs`): push a cover-initialized-name
diagnostic for every pending `CoverInitializedName` entry. -/
def check_unfinished_errors (s : ParserImpl) : ParserImpl :=
  { s with
    errors :=
      s.errors ++ s.state.cover_initialized_name.map fun sp =>
        Diagnostic.cover_initialized_name sp }

/-- `overlong_error` (`lib.rs`): a source longer than `MAX_LEN` yields the
overlong-source diagnostic. -/
def overlong_error (s : ParserImpl) : Option Diagnostic :=
  if s.source_len > MAX_LEN then some .overlong_source else none

/-- `flow_error` (`lib.rs`): for a JavaScript file whose first comment
contains an `@flow` marker, clear the diagnostics and produce the Flow
diagnostic.  `first_comment` models `lexer.trivia_builder.comments.first()`
as the comment's span paired with whether its text contains `@flow` (the
trivia builder is external). -/
def flow_error (s : ParserImpl) (first_comment : Option (Span × Bool)) :
    Option Diagnostic × ParserImpl :=
  if !s.source_type.is_javascript then (none, s)
  else
    match first_comment with
    | none => (none, s)
    | some fc =>
        if fc.2 then (some (.flow fc.1), { s with errors := [] })
        else (none, s)

/-- Finalization of `parse` (`lib.rs`, lines 467-533): given the program
produced by `parse_program`, surface the fatal error (truncating the
diagnostic list to the recorded length and replacing the program with a
dummy), flush unfinished errors, check the length limit, check for Flow,
assemble the error list, and promote an unambiguous source type. -/
def parse_finalize (s : ParserImpl) (program0 : Program)
    (first_comment : Option (Span × Bool)) (module_record : ModuleRecord)
    (module_record_errors : List Diagnostic) : ParserReturn :=
  let panicked := false
  let step1 : ParserImpl × Program × Bool :=
    match s.fatal_error with
    | some fatal_error =>
        let s := { s with fatal_error := none }
        let panicked := true
        let s := { s with errors := s.errors.take fatal_error.errors_len }
        let s :=
          if !s.lexer.errors.isEmpty && s.cur_kind.is_eof then s
          else s.error fatal_error.error
        (s, Program.dummy s.source_type, panicked)
    | none => (s, program0, panicked)
  let s := step1.1
  let program := step1.2.1
  let panicked := step1.2.2
  let s := s.check_unfinished_errors
  let step2 : ParserImpl × Bool :=
    match s.overlong_error with
    | some overlong =>
        let s := { s with lexer := { s.lexer with errors := [] }, errors := [] }
        (s.error overlong, true)
    | none => (s, panicked)
  let s := step2.1
  let panicked := step2.2
  let step3 : Option Diagnostic × ParserImpl :=
    if !s.lexer.errors.isEmpty || !s.errors.isEmpty then
      s.flow_error first_comment
    else (none, s)
  let flow_diag := step3.1
  let s := step3.2
  let is_flow_language := flow_diag.isSome
  let errors0 : List Diagnostic :=
    match flow_diag with
    | some e => [e]
    | none => []
  let errors1 :=
    if errors0.length != 1 then
      errors0 ++ s.lexer.errors ++ s.errors ++
        (if !s.source_type.is_typescript then module_record_errors else [])
    else errors0
  let program :=
    if program.source_type.is_unambiguous then
      { program with
        source_type :=
          if module_record.has_module_syntax then
            program.source_type.with_module true
          else
            program.source_type.with_script true }
    else program
  { program := program, errors := errors1, panicked := panicked,
    is_flow_language := is_flow_language }

end ParserImpl

/-! ## Concrete probe states used to exercise the operations -/

/-- A plain JavaScript script source type. -/
def jsScript : SourceType :=
  ⟨.javascript, .script, false⟩

/-- Default options with error recovery enabled. -/
def recoverOptions : ParseOptions :=
  { ParseOptions.default with recover_from_errors := true }

/-- A small concrete parser state: current token `:` at bytes 6-7, one
upcoming `Ident` token, no diagnostics, recovery disabled. -/
def probeBase : ParserImpl where
  options := ParseOptions.default
  lexer := ⟨[⟨.Ident, 8, 9, false, false⟩], 0, []⟩
  source_type := jsScript
  source_len := 20
  errors := []
  fatal_error := none
  token := ⟨.Colon, 6, 7, false, false⟩
  prev_token_end := 6
  state := ParserState.new
  ctx := Context.default
  context_stack := ParsingContextStack.new

/-- Recovery-mode state whose current token `:` is meaningless in every
active context. -/
def syncSkipProbe : ParserImpl :=
  { probeBase with options := recoverOptions }

/-- Recovery-mode state currently at a `(` token spanning bytes 3-4. -/
def lookaheadProbe : ParserImpl :=
  { probeBase with
    options := recoverOptions
    token := ⟨.LParen, 3, 4, false, false⟩
    prev_token_end := 3 }

/-- A lookahead predicate that runs `expect(LParen)` (as e.g. an
arrow-function lookahead would) and answers `true`. -/
def lookaheadProbeF : ParserImpl → Bool × ParserImpl :=
  fun p => (true, p.expect .LParen)

/-- State for exercising `try_parse`. -/
def tryParseProbe : ParserImpl :=
  probeBase

/-- A sub-parser that records one recoverable diagnostic and yields 42. -/
def tryParseProbeF : ParserImpl → Nat × ParserImpl :=
  fun p => (42, p.error (.other "probe" ⟨0, 0⟩))

/-- Recovery-mode state at an `Ident` token that is not `;`, `}`, `<eof>`
and not on a new line — the ASI failure situation. -/
def asiProbe : ParserImpl :=
  { probeBase with
    options := recoverOptions
    token := ⟨.Ident, 6, 7, false, false⟩ }

/-- Recovery-mode state for the try-statement handler fix-up. -/
def tryHandlerProbe : ParserImpl :=
  { probeBase with options := recoverOptions }

/-- Recovery-mode state whose current token is an `Ident` (bytes 5-6), not
the `(` that `expect(LParen)` will ask for. -/
def expectParenProbe : ParserImpl :=
  { probeBase with
    options := recoverOptions
    token := ⟨.Ident, 5, 6, false, false⟩ }

/-- Recovery-mode state actually at a `(` token spanning bytes 3-4. -/
def expectParenWitnessProbe : ParserImpl :=
  { probeBase with
    options := recoverOptions
    token := ⟨.LParen, 3, 4, false, false⟩ }

/-- Pre-finalization state of a non-recovery parse that recorded a fatal
ASI error with `errors_len = 0` while a `CoverInitializedName` entry (span
2-7) was still pending — as produced by the source `({a = 1}) ]`: the
object expression records the cover-initialized-name entry, then ASI fails
at the `]` token and sets the fatal slot. -/
def finalizeFatalProbe : ParserImpl :=
  { probeBase with
    lexer := ⟨[], 1, []⟩
    source_len := 12
    fatal_error := some ⟨.auto_semicolon_insertion (Span.empty 9), 0⟩
    token := ⟨.RBrack, 10, 11, false, false⟩
    prev_token_end := 9
    state := { ParserState.new with cover_initialized_name := [⟨2, 7⟩] } }

/-- Same fatal pre-finalization state but with no pending
cover-initialized-name entries. -/
def finalizeWitnessProbe : ParserImpl :=
  { finalizeFatalProbe with state := ParserState.new }

/-- A non-empty program as `parse_program` would have produced before the
fatal error is observed. -/
def finalizeProbeProgram : Program :=
  ⟨1, 0, false, jsScript⟩

/-! ## Shared helper lemmas -/

/-- `advance` moves the lexer cursor forward by one position. -/
theorem advance_pos (s : ParserImpl) (k : Kind) :
    (s.advance k).lexer.pos = s.lexer.pos + 1 := by
  unfold ParserImpl.advance ParserImpl.report_escaped_keyword ParserImpl.error
    LexerState.next_token
  by_cases h : s.token.escaped && k.is_any_keyword <;> simp [h]

/-- `advance` does not change the lexer's token stream. -/
theorem advance_lexer_tokens (s : ParserImpl) (k : Kind) :
    (s.advance k).lexer.tokens = s.lexer.tokens := by
  unfold ParserImpl.advance ParserImpl.report_escaped_keyword ParserImpl.error
    LexerState.next_token
  by_cases h : s.token.escaped && k.is_any_keyword <;> simp [h]

/-- `advance` does not change the lexer's error list. -/
theorem advance_lexer_errors (s : ParserImpl) (k : Kind) :
    (s.advance k).lexer.errors = s.lexer.errors := by
  unfold ParserImpl.advance ParserImpl.report_escaped_keyword ParserImpl.error
    LexerState.next_token
  by_cases h : s.token.escaped && k.is_any_keyword <;> simp [h]

/-- `advance` replaces the current token with the next lexed token. -/
theorem advance_token (s : ParserImpl) (k : Kind) :
    (s.advance k).token = s.lexer.tokens.getD s.lexer.pos endOfFileToken := by
  unfold ParserImpl.advance ParserImpl.report_escaped_keyword ParserImpl.error
    LexerState.next_token
  by_cases h : s.token.escaped && k.is_any_keyword <;> simp [h]

/-- `advance` records the consumed token's end as `prev_token_end`. -/
theorem advance_prev (s : ParserImpl) (k : Kind) :
    (s.advance k).prev_token_end = s.token.end_ := by
  unfold ParserImpl.advance ParserImpl.report_escaped_keyword ParserImpl.error
    LexerState.next_token
  by_cases h : s.token.escaped && k.is_any_keyword <;> simp [h]

/-- `advance` does not touch the auxiliary parser state. -/
theorem advance_state (s : ParserImpl) (k : Kind) :
    (s.advance k).state = s.state := by
  unfold ParserImpl.advance ParserImpl.report_escaped_keyword ParserImpl.error
    LexerState.next_token
  by_cases h : s.token.escaped && k.is_any_keyword <;> simp [h]

/-- `advance` does not touch the grammar-context flags. -/
theorem advance_ctx (s : ParserImpl) (k : Kind) :
    (s.advance k).ctx = s.ctx := by
  unfold ParserImpl.advance ParserImpl.report_escaped_keyword ParserImpl.error
    LexerState.next_token
  by_cases h : s.token.escaped && k.is_any_keyword <;> simp [h]

/-- `advance` does not touch the parsing-context stack. -/
theorem advance_context_stack (s : ParserImpl) (k : Kind) :
    (s.advance k).context_stack = s.context_stack := by
  unfold ParserImpl.advance ParserImpl.report_escaped_keyword ParserImpl.error
    LexerState.next_token
  by_cases h : s.token.escaped && k.is_any_keyword <;> simp [h]

/-- `advance` does not touch the fatal slot. -/
theorem advance_fatal (s : ParserImpl) (k : Kind) :
    (s.advance k).fatal_error = s.fatal_error := by
  unfold ParserImpl.advance ParserImpl.report_escaped_keyword ParserImpl.error
    LexerState.next_token
  by_cases h : s.token.escaped && k.is_any_keyword <;> simp [h]

/-- `advance` does not touch the options. -/
theorem advance_options (s : ParserImpl) (k : Kind) :
    (s.advance k).options = s.options := by
  unfold ParserImpl.advance ParserImpl.report_escaped_keyword ParserImpl.error
    LexerState.next_token
  by_cases h : s.token.escaped && k.is_any_keyword <;> simp [h]

/-- When the advanced-over kind is not a keyword, `advance` leaves the
diagnostic list unchanged as well. -/
theorem advance_errors_of_not_keyword (s : ParserImpl) (k : Kind)
    (h : k.is_any_keyword = false) :
    (s.advance k).errors = s.errors := by
  unfold ParserImpl.advance ParserImpl.report_escaped_keyword ParserImpl.error
    LexerState.next_token
  simp [h]

/-- `set_fatal_error` does not touch the auxiliary parser state. -/
theorem set_fatal_error_state (s : ParserImpl) (d : Diagnostic) :
    (s.set_fatal_error d).state = s.state := by
  unfold ParserImpl.set_fatal_error
  split <;> rfl

/-- `set_fatal_error` does not touch the diagnostic list. -/
theorem set_fatal_error_errors (s : ParserImpl) (d : Diagnostic) :
    (s.set_fatal_error d).errors = s.errors := by
  unfold ParserImpl.set_fatal_error
  split <;> rfl

/-- `set_fatal_error` does not touch the lexer. -/
theorem set_fatal_error_lexer (s : ParserImpl) (d : Diagnostic) :
    (s.set_fatal_error d).lexer = s.lexer := by
  unfold ParserImpl.set_fatal_error
  split <;> rfl

/-- `set_fatal_error` does not touch the current token. -/
theorem set_fatal_error_token (s : ParserImpl) (d : Diagnostic) :
    (s.set_fatal_error d).token = s.token := by
  unfold ParserImpl.set_fatal_error
  split <;> rfl

/-- `set_fatal_error` does not touch `prev_token_end`. -/
theorem set_fatal_error_prev (s : ParserImpl) (d : Diagnostic) :
    (s.set_fatal_error d).prev_token_end = s.prev_token_end := by
  unfold ParserImpl.set_fatal_error
  split <;> rfl

/-- On an empty fatal slot, `set_fatal_error` records the diagnostic with
the current diagnostic-list length. -/
theorem set_fatal_error_of_none (s : ParserImpl) (d : Diagnostic)
    (h : s.fatal_error = none) :
    s.set_fatal_error d =
      { s with fatal_error := some ⟨d, s.errors.length⟩ } := by
  unfold ParserImpl.set_fatal_error
  simp [h]

/-! ## Claim theorems -/

/-- C1: `synchronize_on_error(ctx)` returns `Abort` without consuming a
token when recovery is disabled; with recovery enabled it returns `Abort`
without consuming a token when the current token is a terminator of `ctx`
or a terminator or recovery-mode element start of some context on the
active context stack; in every other case it consumes exactly the current
token and returns `Skip`. -/
theorem synchronize_on_error_spec (s : ParserImpl) (ctx : ParsingContext) :
    (s.options.recover_from_errors = false →
      s.synchronize_on_error ctx = (.Abort, s)) ∧
    (s.options.recover_from_errors = true →
      ((s.is_context_terminator ctx = true ∨
        ∃ c ∈ s.context_stack.active_contexts,
          s.is_context_terminator c = true ∨
          s.is_context_element_start c true = true) →
        s.synchronize_on_error ctx = (.Abort, s)) ∧
      ((s.is_context_terminator ctx = false ∧
        ∀ c ∈ s.context_stack.active_contexts,
          s.is_context_terminator c = false ∧
          s.is_context_element_start c true = false) →
        s.synchronize_on_error ctx = (.Skip, s.bump_any) ∧
        (s.bump_any).lexer.pos = s.lexer.pos + 1 ∧
        (s.bump_any).prev_token_end = s.token.end_ ∧
        (s.bump_any).token =
          s.lexer.tokens.getD s.lexer.pos endOfFileToken ∧
        (s.bump_any).state = s.state ∧
        (s.bump_any).context_stack = s.context_stack ∧
        (s.bump_any).fatal_error = s.fatal_error)) := by
  refine ⟨?_, ?_⟩
  · intro hr
    simp [ParserImpl.synchronize_on_error, hr]
  · intro hr
    constructor
    · rintro (ht | ⟨c, hc, hor⟩)
      · simp [ParserImpl.synchronize_on_error, hr, ht]
      · have hin : s.is_in_some_parsing_context = true := by
          unfold ParserImpl.is_in_some_parsing_context
          rw [if_neg (by simp [hr])]
          rw [List.any_eq_true]
          exact ⟨c, hc, by rcases hor with h | h <;> simp [h]⟩
        by_cases hct : s.is_context_terminator ctx = true
        · simp [ParserImpl.synchronize_on_error, hr, hct]
        · simp [ParserImpl.synchronize_on_error, hr, hct, hin]
    · rintro ⟨ht, hall⟩
      have hin : s.is_in_some_parsing_context = false := by
        unfold ParserImpl.is_in_some_parsing_context
        rw [if_neg (by simp [hr])]
        refine Bool.eq_false_iff.mpr ?_
        intro hany
        rw [List.any_eq_true] at hany
        obtain ⟨c, hc, hp⟩ := hany
        rcases hall c hc with ⟨h1, h2⟩
        simp [h1, h2] at hp
      refine ⟨by simp [ParserImpl.synchronize_on_error, hr, ht, hin],
        advance_pos s _, advance_prev s _, advance_token s _,
        advance_state s _, advance_context_stack s _, advance_fatal s _⟩

/-- C1 witness: at a concrete recovery-mode state whose current token `:`
is meaningless everywhere (context stack `[TopLevel]`), synchronization
skips, consuming exactly one token. -/
theorem synchronize_on_error_spec_witness :
    syncSkipProbe.synchronize_on_error .BlockStatements =
      (.Skip, syncSkipProbe.bump_any) ∧
    (syncSkipProbe.bump_any).lexer.pos = syncSkipProbe.lexer.pos + 1 := by
  have h := synchronize_on_error_spec syncSkipProbe .BlockStatements
  have h2 := (h.2 (by decide)).2 ⟨by decide, by decide⟩
  exact ⟨h2.1, h2.2.1⟩

/-- C5: `asi()` consumes the current token when it is `;`; it accepts
silently without consuming when the current token is `}`, EOF, or on a new
line; otherwise it leaves the token stream unchanged and either appends an
auto-semicolon-insertion diagnostic at the zero-length span at
`prev_token_end` (recovery mode) or sets the fatal slot to that diagnostic
(non-recovery mode). -/
theorem asi_spec (s : ParserImpl) :
    (s.token.kind = .Semicolon →
      s.asi = s.advance .Semicolon ∧
      (s.asi).lexer.pos = s.lexer.pos + 1 ∧
      (s.asi).errors = s.errors ∧
      (s.asi).fatal_error = s.fatal_error) ∧
    (s.token.kind ≠ .Semicolon →
      (s.token.kind = .RCurly ∨ s.token.kind = .Eof ∨ s.token.on_new_line = true) →
      s.asi = s) ∧
    (s.token.kind ≠ .Semicolon → s.token.kind ≠ .RCurly → s.token.kind ≠ .Eof →
      s.token.on_new_line = false →
      (s.asi).token = s.token ∧
      (s.asi).lexer = s.lexer ∧
      (s.asi).prev_token_end = s.prev_token_end ∧
      (s.options.recover_from_errors = true →
        (s.asi).errors = s.errors ++
          [.auto_semicolon_insertion (Span.empty s.prev_token_end)] ∧
        (s.asi).fatal_error = s.fatal_error) ∧
      (s.options.recover_from_errors = false → s.fatal_error = none →
        (s.asi).errors = s.errors ∧
        (s.asi).fatal_error =
          some ⟨.auto_semicolon_insertion (Span.empty s.prev_token_end),
                s.errors.length⟩)) := by
  refine ⟨?_, ?_, ?_⟩
  · intro h
    have hat : s.at_ .Semicolon = true := by
      simp [ParserImpl.at_, ParserImpl.cur_kind, h]
    have hasi : s.asi = s.advance .Semicolon := by
      unfold ParserImpl.asi ParserImpl.eat
      simp [hat]
    refine ⟨hasi, ?_, ?_, ?_⟩
    · rw [hasi]; exact advance_pos s _
    · rw [hasi]; exact advance_errors_of_not_keyword s _ rfl
    · rw [hasi]; exact advance_fatal s _
  · intro h hcase
    have hat : s.at_ .Semicolon = false := by
      simp [ParserImpl.at_, ParserImpl.cur_kind, h]
    have hcan : s.can_insert_semicolon = true := by
      unfold ParserImpl.can_insert_semicolon Token.is_on_new_line
      rcases hcase with h1 | h1 | h1 <;> simp [h1]
    unfold ParserImpl.asi ParserImpl.eat
    simp [hat, hcan]
  · intro h1 h2 h3 h4
    have hat : s.at_ .Semicolon = false := by
      simp [ParserImpl.at_, ParserImpl.cur_kind, h1]
    have hcan : s.can_insert_semicolon = false := by
      unfold ParserImpl.can_insert_semicolon Token.is_on_new_line
      simp [h1, h2, h3, h4]
    have hshape : s.asi =
        (if s.options.recover_from_errors then
          s.error (.auto_semicolon_insertion (Span.empty s.prev_token_end))
        else
          s.set_fatal_error
            (.auto_semicolon_insertion (Span.empty s.prev_token_end))) := by
      unfold ParserImpl.asi ParserImpl.eat
      simp [hat, hcan]
    refine ⟨?_, ?_, ?_, ?_, ?_⟩
    · rw [hshape]
      by_cases hrec : s.options.recover_from_errors <;>
        simp [hrec, ParserImpl.error, set_fatal_error_token]
    · rw [hshape]
      by_cases hrec : s.options.recover_from_errors <;>
        simp [hrec, ParserImpl.error, set_fatal_error_lexer]
    · rw [hshape]
      by_cases hrec : s.options.recover_from_errors <;>
        simp [hrec, ParserImpl.error, set_fatal_error_prev]
    · intro hrec
      rw [hshape]
      simp [hrec, ParserImpl.error]
    · intro hrec hfat
      rw [hshape]
      simp [hrec, set_fatal_error_of_none s _ hfat]

/-- C5 witness: the diagnostic branch at a concrete recovery-mode state
(current token an identifier, not on a new line). -/
theorem asi_spec_witness :
    (asiProbe.asi).errors = asiProbe.errors ++
      [.auto_semicolon_insertion (Span.empty asiProbe.prev_token_end)] ∧
    (asiProbe.asi).token = asiProbe.token ∧
    (asiProbe.asi).lexer = asiProbe.lexer := by
  have h := asi_spec asiProbe
  have h3 := h.2.2 (by decide) (by decide) (by decide) (by decide)
  exact ⟨(h3.2.2.2.1 (by decide)).1, h3.1, h3.2.1⟩

/-- C2: `try_parse(f)` returns `some` exactly when, after running `f` from
the checkpoint, no fatal error is set and the diagnostic list has the same
length as at the checkpoint; whenever it returns `none`, the current token,
`prev_token_end`, the diagnostic list, the fatal slot, the lexer position
and the grammar-context flags are restored to their checkpoint values.  The
hypothesis states that `f` (like every sub-parser built from the cursor
operations) only appends diagnostics past the checkpointed prefix. -/
theorem try_parse_spec {α : Type} (f : ParserImpl → α × ParserImpl)
    (s : ParserImpl)
    (h : (f { s with fatal_error := none }).2.errors.take s.errors.length
      = s.errors) :
    ((s.try_parse f).1.isSome = true ↔
      (f { s with fatal_error := none }).2.fatal_error = none ∧
      (f { s with fatal_error := none }).2.errors.length = s.errors.length) ∧
    ((s.try_parse f).1 = none →
      (s.try_parse f).2.token = s.token ∧
      (s.try_parse f).2.prev_token_end = s.prev_token_end ∧
      (s.try_parse f).2.errors = s.errors ∧
      (s.try_parse f).2.fatal_error = s.fatal_error ∧
      (s.try_parse f).2.lexer.pos = s.lexer.pos ∧
      (s.try_parse f).2.ctx = s.ctx) := by
  unfold ParserImpl.try_parse ParserImpl.checkpoint_with_error_recovery
    ParserImpl.checkpoint ParserImpl.rewind LexerState.rewind
    LexerState.checkpoint
  by_cases hc : (f { s with fatal_error := none }).2.fatal_error.isNone
      && ((f { s with fatal_error := none }).2.errors.length ==
        s.errors.length)
  · rw [Bool.and_eq_true] at hc
    obtain ⟨h1, h2⟩ := hc
    simp only [Option.isNone_iff_eq_none] at h1
    simp only [beq_iff_eq] at h2
    simp [h1, h2]
  · simp only [Bool.and_eq_true, Option.isNone_iff_eq_none, beq_iff_eq] at hc
    have hcond : ((f { s with fatal_error := none }).2.fatal_error.isNone
        && ((f { s with fatal_error := none }).2.errors.length ==
          s.errors.length)) = false := by
      rw [Bool.and_eq_false_iff]
      by_cases hf : (f { s with fatal_error := none }).2.fatal_error = none
      · right
        refine beq_eq_false_iff_ne.mpr ?_
        intro hl
        exact hc ⟨hf, hl⟩
      · left
        cases hcase : (f { s with fatal_error := none }).2.fatal_error
        · exact absurd hcase hf
        · simp [hcase]
    simp [hcond, h, hc]

/-- C2 witness: a sub-parser that records one recoverable diagnostic is
rolled back at a concrete state — `try_parse` returns `none` with the
observable state restored. -/
theorem try_parse_spec_witness :
    (tryParseProbe.try_parse tryParseProbeF).1 = none ∧
    (tryParseProbe.try_parse tryParseProbeF).2.errors =
      tryParseProbe.errors ∧
    (tryParseProbe.try_parse tryParseProbeF).2.fatal_error =
      tryParseProbe.fatal_error ∧
    (tryParseProbe.try_parse tryParseProbeF).2.token =
      tryParseProbe.token := by
  have h := try_parse_spec tryParseProbeF tryParseProbe (by decide)
  have hn : (tryParseProbe.try_parse tryParseProbeF).1 = none := by decide
  have h2 := h.2 hn
  exact ⟨hn, h2.2.2.1, h2.2.2.2.1, h2.1⟩

/-- C6 counterexample: a lookahead predicate that runs `expect(LParen)` at
a recovery-mode state standing at `(` leaves the span pushed on
`paren_stack` behind after the rewind — the auxiliary parser state is NOT
restored, contrary to the claim. -/
theorem lookahead_paren_stack_not_restored :
    (lookaheadProbe.lookahead lookaheadProbeF).2.state.paren_stack =
      [⟨3, 4⟩] ∧
    lookaheadProbe.state.paren_stack = [] := by
  decide

/-- C6 (amended): after `lookahead(f)` the cursor-observable state —
current token, `prev_token_end`, diagnostic list, fatal slot and lexer
position — is restored regardless of the result (given that `f` only
appends diagnostics), but auxiliary parser state such as the paren stack is
left exactly as `f` produced it, not restored. -/
theorem lookahead_restores_cursor {α : Type}
    (f : ParserImpl → α × ParserImpl) (s : ParserImpl)
    (h : (f { s with fatal_error := none }).2.errors.take s.errors.length
      = s.errors) :
    (s.lookahead f).2.token = s.token ∧
    (s.lookahead f).2.prev_token_end = s.prev_token_end ∧
    (s.lookahead f).2.errors = s.errors ∧
    (s.lookahead f).2.fatal_error = s.fatal_error ∧
    (s.lookahead f).2.lexer.pos = s.lexer.pos ∧
    (s.lookahead f).2.state = (f { s with fatal_error := none }).2.state := by
  unfold ParserImpl.lookahead ParserImpl.checkpoint ParserImpl.rewind
    LexerState.rewind LexerState.checkpoint
  simp [h]

/-- C6 witness: the amended restoration at the concrete probe state. -/
theorem lookahead_restores_cursor_witness :
    (lookaheadProbe.lookahead lookaheadProbeF).2.token =
      lookaheadProbe.token ∧
    (lookaheadProbe.lookahead lookaheadProbeF).2.errors =
      lookaheadProbe.errors ∧
    (lookaheadProbe.lookahead lookaheadProbeF).2.lexer.pos =
      lookaheadProbe.lexer.pos := by
  have h := lookahead_restores_cursor lookaheadProbeF lookaheadProbe
    (by decide)
  exact ⟨h.1, h.2.2.1, h.2.2.2.2.1⟩

/-- C3: with recovery enabled, `is_context_terminator` accepts exactly the
tokens of the spec's terminator table for each of the 18 parsing contexts;
with recovery disabled it is false for every context and token. -/
theorem is_context_terminator_matches_spec_table :
    ∀ (s : ParserImpl) (ctx : ParsingContext),
      s.is_context_terminator ctx =
        (s.options.recover_from_errors && specTerminatorTable ctx s.cur_kind) := by
  intro s ctx
  cases hr : s.options.recover_from_errors
  · simp [ParserImpl.is_context_terminator, hr]
  · cases ctx <;>
      simp [ParserImpl.is_context_terminator, specTerminatorTable,
        ParserImpl.at_, hr]

/-- C7: the `Context` bitflags declared in `context.rs` are exactly the
seven flags `In`, `Yield`, `Await`, `Return`, `Decorator`,
`DisallowConditionalTypes`, `Ambient` — there is no `StrictMode` flag (and
all declared bits fit below bit 7), so the `Context::StrictMode` reference
in `js/statement.rs` has no referent and the flag the claim describes
cannot be set. -/
theorem strict_mode_flag_not_declared :
    ("StrictMode" ∉ Context.declaredFlagNames) ∧
    Context.declaredFlagNames.length = 7 ∧
    ∀ c ∈ Context.declaredFlags, c.bits < 128 := by
  decide

/-- C8 counterexample: in recovery mode, the handler fabricated for a `try`
with neither `catch` nor `finally` (try block ending at byte 7) carries the
empty span after the block and an empty body — but its `param` is `none`:
the synthetic catch clause has NO binding `e`, contrary to the claim. -/
theorem try_statement_dummy_catch_has_no_binding :
    (tryHandlerProbe.try_statement_finish_handler 7 none none).1 =
      some { span := ⟨7, 7⟩, param := none,
             body := { span := ⟨7, 7⟩, body_len := 0 } } ∧
    (tryHandlerProbe.try_statement_finish_handler 7 none none).2.errors =
      [.expect_catch_finally ⟨7, 7⟩] := by
  decide

/-- C8 (amended): when a try statement has neither catch nor finally and
recovery is enabled, exactly one expected-catch-or-finally diagnostic is
recorded at the empty span after the try block, and a synthetic catch
clause with NO parameter and an empty body carrying that span is
substituted, so the resulting node always has a handler. -/
theorem try_statement_missing_handler_spec (s : ParserImpl) (block_end : Nat)
    (hr : s.options.recover_from_errors = true) :
    (s.try_statement_finish_handler block_end none none).1 =
      some (create_dummy_catch_clause (Span.empty block_end)) ∧
    (create_dummy_catch_clause (Span.empty block_end)).param = none ∧
    (create_dummy_catch_clause (Span.empty block_end)).body =
      { span := Span.empty block_end, body_len := 0 } ∧
    (s.try_statement_finish_handler block_end none none).2.errors =
      s.errors ++ [.expect_catch_finally (Span.empty block_end)] ∧
    (s.try_statement_finish_handler block_end none none).2.fatal_error =
      s.fatal_error := by
  unfold ParserImpl.try_statement_finish_handler create_dummy_catch_clause
  simp [ParserImpl.error, hr, Span.empty]

/-- C8 witness: the amended behaviour at a concrete recovery-mode state. -/
theorem try_statement_missing_handler_spec_witness :
    (tryHandlerProbe.try_statement_finish_handler 9 none none).1 =
      some (create_dummy_catch_clause (Span.empty 9)) ∧
    (tryHandlerProbe.try_statement_finish_handler 9 none none).2.errors =
      [.expect_catch_finally (Span.empty 9)] := by
  have h := try_statement_missing_handler_spec tryHandlerProbe 9 (by decide)
  exact ⟨h.1, h.2.2.2.1⟩

/-- C9 counterexample: a recovery-mode `expect(LParen)` call whose current
token is an identifier (not `(`) records nothing on `paren_stack` — so not
every recovery-mode `expect(LParen)` call pushes a span, contrary to the
claim. -/
theorem expect_lparen_without_push :
    expectParenProbe.options.recover_from_errors = true ∧
    expectParenProbe.at_ .LParen = false ∧
    expectParenProbe.state.paren_stack = [] ∧
    (expectParenProbe.expect .LParen).state.paren_stack = [] := by
  decide

/-- C9 (amended): in recovery mode, `expect(LParen)` pushes the current
token's span onto `paren_stack` exactly when the current token really is
`(` (otherwise the stack is unchanged); `expect_closing(RParen)` pops the
stack exactly once whether or not the closer is present, records an
expected-closing diagnostic referencing the opening span on mismatch (and
nothing on a match), and advances the cursor regardless. -/
theorem expect_paren_tracking_spec (s : ParserImpl) (opening : Span)
    (hr : s.options.recover_from_errors = true) :
    (s.at_ .LParen = true →
      (s.expect .LParen).state.paren_stack =
        s.state.paren_stack ++ [s.token.span]) ∧
    (s.at_ .LParen = false →
      (s.expect .LParen).state.paren_stack = s.state.paren_stack) ∧
    ((s.expect_closing .RParen opening).state.paren_stack =
      s.state.paren_stack.dropLast) ∧
    (s.at_ .RParen = false →
      (s.expect_closing .RParen opening).errors =
        s.errors ++ [.expect_closing .RParen s.cur_kind s.token.span opening]) ∧
    (s.at_ .RParen = true →
      (s.expect_closing .RParen opening).errors = s.errors) ∧
    ((s.expect_closing .RParen opening).lexer.pos = s.lexer.pos + 1) ∧
    ((s.expect .LParen).lexer.pos = s.lexer.pos + 1) := by
  refine ⟨?_, ?_, ?_, ?_, ?_, ?_, ?_⟩
  · intro hat
    unfold ParserImpl.expect
    simp [hr, hat, ParserImpl.at_, ParserImpl.cur_kind,
      ParserImpl.handle_expect_failure, ParserImpl.error,
      advance_state, ParserState.push_paren] at hat ⊢
    simp [hat]
  · intro hat
    unfold ParserImpl.expect
    simp [hr, hat, ParserImpl.at_, ParserImpl.cur_kind,
      ParserImpl.handle_expect_failure, ParserImpl.error,
      advance_state] at hat ⊢
    simp [hat, hr]
  · unfold ParserImpl.expect_closing
    by_cases hat : s.at_ .RParen <;>
      simp [hr, hat, ParserImpl.at_, ParserImpl.cur_kind, ParserImpl.error,
        advance_state, ParserState.pop_paren] at hat ⊢ <;>
      simp [hat, ParserImpl.error, advance_state, ParserState.pop_paren]
  · intro hat
    unfold ParserImpl.expect_closing
    simp [ParserImpl.at_, ParserImpl.cur_kind] at hat
    simp [hr, hat, ParserImpl.at_, ParserImpl.cur_kind, ParserImpl.error,
      Token.span, advance_errors_of_not_keyword _ .RParen rfl]
  · intro hat
    unfold ParserImpl.expect_closing
    simp [ParserImpl.at_, ParserImpl.cur_kind] at hat
    simp [hr, hat, ParserImpl.at_, ParserImpl.cur_kind,
      advance_errors_of_not_keyword _ .RParen rfl]
  · unfold ParserImpl.expect_closing
    by_cases hat : s.at_ .RParen <;>
      simp [ParserImpl.at_, ParserImpl.cur_kind] at hat <;>
      simp [hr, hat, ParserImpl.at_, ParserImpl.cur_kind, ParserImpl.error,
        advance_pos]
  · unfold ParserImpl.expect
    by_cases hat : s.at_ .LParen <;>
      simp [ParserImpl.at_, ParserImpl.cur_kind] at hat <;>
      simp [hr, hat, ParserImpl.at_, ParserImpl.cur_kind,
        ParserImpl.handle_expect_failure, ParserImpl.error, advance_pos]

/-- C9 witness: the amended behaviour at a concrete recovery-mode state
standing at `(` (bytes 3-4). -/
theorem expect_paren_tracking_spec_witness :
    (expectParenWitnessProbe.expect .LParen).state.paren_stack = [⟨3, 4⟩] ∧
    (expectParenWitnessProbe.expect_closing .RParen ⟨3, 4⟩).state.paren_stack
      = [] ∧
    (expectParenWitnessProbe.expect_closing .RParen ⟨3, 4⟩).lexer.pos =
      expectParenWitnessProbe.lexer.pos + 1 := by
  have h := expect_paren_tracking_spec expectParenWitnessProbe ⟨3, 4⟩ (by decide)
  refine ⟨?_, ?_, h.2.2.2.2.2.1⟩
  · have h1 := h.1 (by decide)
    simpa using h1
  · have h3 := h.2.2.1
    simpa using h3

/-- C10: popping the paren stack when it is empty is a total no-op —
`pop_paren` returns `false` and leaves the stack empty — so a recovery-mode
`expect_closing(RParen)` is safe even when no matching opening span was
ever recorded and leaves the stack empty. -/
theorem pop_paren_empty_is_noop :
    (ParserState.new.pop_paren = (false, ParserState.new)) ∧
    (∀ (st : ParserState), st.paren_stack = [] →
      st.pop_paren = (false, st)) ∧
    (∀ (s : ParserImpl) (opening : Span), s.state.paren_stack = [] →
      (s.expect_closing .RParen opening).state.paren_stack = []) := by
  refine ⟨by decide, ?_, ?_⟩
  · intro st hst
    obtain ⟨a, b, c, d⟩ := st
    simp only at hst
    subst hst
    simp [ParserState.pop_paren]
  · intro s opening hst
    unfold ParserImpl.expect_closing
    by_cases hrec : s.options.recover_from_errors <;>
      by_cases hat : s.at_ .RParen <;>
        simp [ParserImpl.at_, ParserImpl.cur_kind] at hat <;>
        simp [hrec, hat, ParserImpl.at_, ParserImpl.cur_kind,
          ParserImpl.error, set_fatal_error_state,
          ParserState.pop_paren, hst, advance_state]

/-- C10 witness: the no-op pop and the safe `expect_closing` at a concrete
state with an empty paren stack. -/
theorem pop_paren_empty_is_noop_witness :
    ParserState.new.pop_paren = (false, ParserState.new) ∧
    (probeBase.expect_closing .RParen ⟨0, 1⟩).state.paren_stack = [] := by
  have h := pop_paren_empty_is_noop
  exact ⟨h.1, h.2.2 probeBase ⟨0, 1⟩ (by decide)⟩

/-- C4 counterexample: a non-recovery pre-finalization state with a fatal
record of `errors_len = 0` but a pending cover-initialized-name entry (as
produced by the source `({a = 1}) ]`) finalizes with `panicked = true` and
TWO errors — `check_unfinished_errors` runs after the truncation — so
`panicked` does not imply `errors.len() == 1`. -/
theorem panicked_fatal_two_errors :
    (finalizeFatalProbe.parse_finalize finalizeProbeProgram none
      ⟨false⟩ []).panicked = true ∧
    (finalizeFatalProbe.parse_finalize finalizeProbeProgram none
      ⟨false⟩ []).errors =
      [.auto_semicolon_insertion (Span.empty 9),
       .cover_initialized_name ⟨2, 7⟩] ∧
    (finalizeFatalProbe.parse_finalize finalizeProbeProgram none
      ⟨false⟩ []).errors.length = 2 := by
  decide

/-- C4 (amended): when the fatal slot is set, finalization yields
`panicked = true` and an empty program; the error list is exactly the
single fatal diagnostic provided no diagnostics were recorded before the
fault (`errors_len = 0`), the lexer produced no errors, no
cover-initialized-name entries are pending, the source is within the
length limit, there is no leading comment, and the module record
contributed no errors. -/
theorem parse_finalize_fatal_spec (s : ParserImpl) (program0 : Program)
    (mr : ModuleRecord) (fe : FatalError)
    (hf : s.fatal_error = some fe)
    (hlen : fe.errors_len = 0)
    (hlex : s.lexer.errors = [])
    (hcover : s.state.cover_initialized_name = [])
    (hsrc : s.source_len ≤ MAX_LEN) :
    (s.parse_finalize program0 none mr []).panicked = true ∧
    (s.parse_finalize program0 none mr []).errors = [fe.error] ∧
    (s.parse_finalize program0 none mr []).program.is_empty = true := by
  have hno : ¬ (s.source_len > MAX_LEN) := by omega
  unfold ParserImpl.parse_finalize ParserImpl.check_unfinished_errors
    ParserImpl.overlong_error ParserImpl.flow_error ParserImpl.error
    ParserImpl.cur_kind Program.dummy Program.is_empty
  simp only [hf, hlen, hlex, hcover, hno, List.take_zero, List.map_nil,
    List.append_nil, List.nil_append, List.isEmpty_nil, List.isEmpty_cons,
    Bool.not_true, Bool.not_false, Bool.false_and, Bool.true_or,
    Bool.or_true, if_false, if_true, ite_self]
  by_cases hjs : s.source_type.is_javascript = true <;>
    by_cases hts : s.source_type.is_typescript = true <;>
      by_cases huna : s.source_type.is_unambiguous = true <;>
        by_cases hms : mr.has_module_syntax = true <;>
          simp [hjs, hts, huna, hms, hno, hlex, hcover,
            SourceType.with_module, SourceType.with_script]

/-- C4 witness: the amended behaviour at a concrete fatal pre-finalization
state with nothing recorded before the fault. -/
theorem parse_finalize_fatal_spec_witness :
    (finalizeWitnessProbe.parse_finalize finalizeProbeProgram none
      ⟨false⟩ []).panicked = true ∧
    (finalizeWitnessProbe.parse_finalize finalizeProbeProgram none
      ⟨false⟩ []).errors =
      [Diagnostic.auto_semicolon_insertion (Span.empty 9)] ∧
    (finalizeWitnessProbe.parse_finalize finalizeProbeProgram none
      ⟨false⟩ []).program.is_empty = true := by
  have h := parse_finalize_fatal_spec finalizeWitnessProbe
    finalizeProbeProgram ⟨false⟩
    ⟨.auto_semicolon_insertion (Span.empty 9), 0⟩
    (by decide) (by decide) (by decide) (by decide) (by decide)
  exact ⟨h.1, h.2.1, h.2.2⟩

end Oxc
